import Mathlib

/-!
Shallow embedding of the GCP performance analyzer core (`src/app.py`).

JSON numbers are modelled as rationals (`ℚ`); Python's `int(...)` is
truncation toward zero (`truncQ`).  JSON objects with optional keys become
structures with `Option` fields; a Python `d['k']` access on a possibly
missing key is modelled by pattern matching, with `none`/failure standing
for the raised `KeyError` (which Flask turns into an HTTP 500).  Python
dicts preserve insertion order, so catalogs are association lists.
-/

namespace GPA

/-- Truncation toward zero of a rational, the semantics of Python `int(x)`. -/
def truncQ (q : ℚ) : ℤ := q.num.tdiv (q.den : ℤ)

/-- Python's `str.startswith`, as a structural prefix test on the
underlying character lists. -/
def pyStartsWith (s pre : String) : Bool := pre.data.isPrefixOf s.data

/-- A JSON value under a disk-catalog key that the code reads either as a
number or as a `{read, write}` object, depending on the disk variant. -/
inductive JVal where
  | num (q : ℚ)
  | obj (read write : ℚ)
deriving DecidableEq

/-- A `{read, write}` pair from the disk catalog. -/
structure ReadWrite where
  read : ℚ
  write : ℚ
deriving DecidableEq

/-- One entry of `data/disks.json` (the keys the code reads). -/
structure DiskSpec where
  name : String
  iops_fixed : Option JVal := none
  throughput_fixed : Option JVal := none
  iops_min : Option JVal := none
  iops_max : Option JVal := none
  throughput_min : Option JVal := none
  throughput_max : Option JVal := none
  note : Option String := none
  iops_baseline : Option ReadWrite := none
  iops_per_gb : Option ReadWrite := none
  throughput_per_gb : Option ReadWrite := none
  min_size_gb : Option ℚ := none
  max_size_gb : Option ℚ := none
deriving DecidableEq

/-- The result dict of `calculate_disk_performance`; keys that a branch does
not set are absent (`none`). -/
structure DiskPerfResult where
  disk_type : String
  disk_name : String
  disk_size_gb : ℚ
  iops_read : Option ℤ := none
  iops_write : Option ℤ := none
  throughput_read_mbps : Option ℤ := none
  throughput_write_mbps : Option ℤ := none
  iops_min_r : Option JVal := none
  iops_max_r : Option JVal := none
  throughput_min_mbps : Option JVal := none
  throughput_max_mbps : Option JVal := none
  note : Option String := none
deriving DecidableEq

/-- `calculate_disk_performance` from `src/app.py`: dispatch on the disk-type
name into the fixed (local-ssd), provisioned (hyperdisk*) or scaling regime.
`none` models both the `None` return for an unknown type and a `KeyError` on
a malformed catalog entry. -/
def calculate_disk_performance (disk_data : List (String × DiskSpec))
    (disk_type : String) (disk_size_gb : ℚ) : Option DiskPerfResult :=
  match disk_data.lookup disk_type with
  | none => none
  | some disk_spec =>
    if disk_type = "local-ssd" then
      match disk_spec.iops_fixed, disk_spec.throughput_fixed with
      | some (JVal.obj ifr ifw), some (JVal.obj tfr tfw) =>
        let num_devices : ℚ := max 1 (disk_size_gb / 375)
        some { disk_type := disk_type, disk_name := disk_spec.name,
               disk_size_gb := disk_size_gb,
               iops_read := some (truncQ (ifr * num_devices)),
               iops_write := some (truncQ (ifw * num_devices)),
               throughput_read_mbps := some (truncQ (tfr * num_devices)),
               throughput_write_mbps := some (truncQ (tfw * num_devices)) }
      | _, _ => none
    else if pyStartsWith disk_type "hyperdisk" then
      match disk_spec.throughput_min, disk_spec.throughput_max, disk_spec.note with
      | some tmin, some tmax, some nt =>
        some { disk_type := disk_type, disk_name := disk_spec.name,
               disk_size_gb := disk_size_gb,
               iops_min_r := some (disk_spec.iops_min.getD (disk_spec.iops_fixed.getD (JVal.num 0))),
               iops_max_r := some (disk_spec.iops_max.getD (disk_spec.iops_fixed.getD (JVal.num 0))),
               throughput_min_mbps := some tmin,
               throughput_max_mbps := some tmax,
               note := some nt }
      | _, _, _ => none
    else
      match disk_spec.iops_per_gb, disk_spec.iops_max,
            disk_spec.throughput_per_gb, disk_spec.throughput_max with
      | some ipg, some (JVal.obj imr imw), some tpg, some (JVal.obj tmr tmw) =>
        let baseline_read := (disk_spec.iops_baseline.getD ⟨0, 0⟩).read
        let baseline_write := (disk_spec.iops_baseline.getD ⟨0, 0⟩).write
        some { disk_type := disk_type, disk_name := disk_spec.name,
               disk_size_gb := disk_size_gb,
               iops_read := some (truncQ (min (baseline_read + disk_size_gb * ipg.read) imr)),
               iops_write := some (truncQ (min (baseline_write + disk_size_gb * ipg.write) imw)),
               throughput_read_mbps := some (truncQ (min (disk_size_gb * tpg.read) tmr)),
               throughput_write_mbps := some (truncQ (min (disk_size_gb * tpg.write) tmw)) }
      | _, _, _, _ => none

/-- One value of a machine's `disk_limits` map. -/
structure DiskLimit where
  max_disk_iops_read : ℚ
  max_disk_iops_write : ℚ
  max_disk_throughput_read_mbps : ℚ
  max_disk_throughput_write_mbps : ℚ
deriving DecidableEq

/-- One machine entry of `data/machines.json`. -/
structure Machine where
  vcpu : ℚ
  memory_gb : ℚ
  network_bandwidth_gbps : ℚ
  cpu_platform : Option String := none
  disk_limits : Option (List (String × DiskLimit)) := none
  max_disk_iops_read : Option ℚ := none
  max_disk_iops_write : Option ℚ := none
  max_disk_throughput_read_mbps : Option ℚ := none
  max_disk_throughput_write_mbps : Option ℚ := none
deriving DecidableEq

/-- One family of `data/machines.json`. -/
structure FamilyData where
  description : String
  machines : List (String × Machine)
deriving DecidableEq

/-- The resolved machine-spec dict built by `find_machine_specs`. -/
structure MachineSpecs where
  family : String
  machine_type : String
  vcpu : ℚ
  memory_gb : ℚ
  network_bandwidth_gbps : ℚ
  cpu_platform : String
  max_disk_iops_read : ℚ
  max_disk_iops_write : ℚ
  max_disk_throughput_read_mbps : ℚ
  max_disk_throughput_write_mbps : ℚ
deriving DecidableEq

/-- Python truthiness of an optional string (`None` and `""` are falsy). -/
def pyTruthyS : Option String → Bool
  | none => false
  | some s => s != ""

/-- Python truthiness of an optional integer (`None` and `0` are falsy). -/
def pyTruthyZ : Option ℤ → Bool
  | none => false
  | some n => n != 0


/-- The result dict of `find_machine_specs` for a found machine, with the
four limit fields filled from one `DiskLimit` entry. -/
def limitsResult (family machine_type : String) (m : Machine) (l : DiskLimit) : MachineSpecs :=
  { family := family, machine_type := machine_type, vcpu := m.vcpu,
    memory_gb := m.memory_gb, network_bandwidth_gbps := m.network_bandwidth_gbps,
    cpu_platform := m.cpu_platform.getD "Unknown",
    max_disk_iops_read := l.max_disk_iops_read,
    max_disk_iops_write := l.max_disk_iops_write,
    max_disk_throughput_read_mbps := l.max_disk_throughput_read_mbps,
    max_disk_throughput_write_mbps := l.max_disk_throughput_write_mbps }

/-- The result dict of `find_machine_specs` for the legacy flat schema:
unset limit fields default to 0. -/
def flatResult (family machine_type : String) (m : Machine) : MachineSpecs :=
  { family := family, machine_type := machine_type, vcpu := m.vcpu,
    memory_gb := m.memory_gb, network_bandwidth_gbps := m.network_bandwidth_gbps,
    cpu_platform := m.cpu_platform.getD "Unknown",
    max_disk_iops_read := m.max_disk_iops_read.getD 0,
    max_disk_iops_write := m.max_disk_iops_write.getD 0,
    max_disk_throughput_read_mbps := m.max_disk_throughput_read_mbps.getD 0,
    max_disk_throughput_write_mbps := m.max_disk_throughput_write_mbps.getD 0 }

/-- The per-machine limit resolution inside `find_machine_specs`:
disk-specific entry, else first map entry, else legacy flat fields.
`none` models the `IndexError` raised on an empty `disk_limits` dict. -/
def resolveLimits (family machine_type : String) (m : Machine)
    (disk_type : Option String) : Option MachineSpecs :=
  match m.disk_limits with
  | some dl =>
    if pyTruthyS disk_type then
      match dl.lookup (disk_type.getD "") with
      | some l => some (limitsResult family machine_type m l)
      | none => dl.head?.map (fun p => limitsResult family machine_type m p.2)
    else dl.head?.map (fun p => limitsResult family machine_type m p.2)
  | none => some (flatResult family machine_type m)

/-- `find_machine_specs` from `src/app.py`: scan the families in order and
resolve the first machine found under the requested machine type. -/
def find_machine_specs (machine_data : List (String × FamilyData))
    (machine_type : String) (disk_type : Option String) : Option MachineSpecs :=
  match machine_data with
  | [] => none
  | (family, family_data) :: rest =>
    match family_data.machines.lookup machine_type with
    | some m => resolveLimits family machine_type m disk_type
    | none => find_machine_specs rest machine_type disk_type

/-- The `machine_limits` sub-dict of the combiner result. -/
structure MachineLimits where
  iops_read : ℚ
  iops_write : ℚ
  throughput_read_mbps : ℚ
  throughput_write_mbps : ℚ
  network_bandwidth_gbps : ℚ
  network_throughput_mbps : ℚ
  vcpu : ℚ
  memory_gb : ℚ
deriving DecidableEq

/-- The `effective_performance` sub-dict: a provisioned range for hyperdisk,
a numeric vector otherwise.  The f-string ranges are kept as value pairs. -/
inductive EffPerf where
  | provisioned (iops_min iops_max throughput_min throughput_max : JVal)
  | numeric (iops_read iops_write throughput_read_mbps throughput_write_mbps : ℚ)
deriving DecidableEq

/-- The result dict of `calculate_effective_performance`. -/
structure EffResult where
  machine_type : String
  family : String
  disk_type : String
  disk_size_gb : ℚ
  machine_limits : MachineLimits
  disk_performance : DiskPerfResult
  effective_performance : EffPerf
  bottleneck : String
deriving DecidableEq

/-- The `bottlenecks` list built by `calculate_effective_performance` for a
non-hyperdisk disk, from the machine specs and the four raw disk values. -/
def bottlenecks (ms : MachineSpecs) (ir iw tr tw : ℤ) : List String :=
  let network_throughput_mbps := ms.network_bandwidth_gbps * 125
  let effective_iops_read := min ms.max_disk_iops_read (ir : ℚ)
  let effective_iops_write := min ms.max_disk_iops_write (iw : ℚ)
  let effective_throughput_read :=
    min (min ms.max_disk_throughput_read_mbps (tr : ℚ)) network_throughput_mbps
  let effective_throughput_write :=
    min (min ms.max_disk_throughput_write_mbps (tw : ℚ)) network_throughput_mbps
  (if effective_iops_read < ms.max_disk_iops_read then ["disk IOPS (read)"] else []) ++
  (if effective_iops_write < ms.max_disk_iops_write then ["disk IOPS (write)"] else []) ++
  (if effective_throughput_read < ms.max_disk_throughput_read_mbps then
     if (tr : ℚ) ≤ network_throughput_mbps then ["disk throughput (read)"]
     else ["network bandwidth (read)"]
   else []) ++
  (if effective_throughput_write < ms.max_disk_throughput_write_mbps then
     if (tw : ℚ) ≤ network_throughput_mbps then ["disk throughput (write)"]
     else ["network bandwidth (write)"]
   else [])

/-- `calculate_effective_performance` from `src/app.py`: three-way min of
machine, disk and network ceilings plus bottleneck attribution.  `none`
models the `KeyError` on a result dict missing the fields its branch reads. -/
def calculate_effective_performance (ms : MachineSpecs) (dp : DiskPerfResult) :
    Option EffResult :=
  let network_throughput_mbps := ms.network_bandwidth_gbps * 125
  let ml : MachineLimits :=
    { iops_read := ms.max_disk_iops_read, iops_write := ms.max_disk_iops_write,
      throughput_read_mbps := ms.max_disk_throughput_read_mbps,
      throughput_write_mbps := ms.max_disk_throughput_write_mbps,
      network_bandwidth_gbps := ms.network_bandwidth_gbps,
      network_throughput_mbps := network_throughput_mbps,
      vcpu := ms.vcpu, memory_gb := ms.memory_gb }
  if pyStartsWith dp.disk_type "hyperdisk" then
    match dp.throughput_min_mbps, dp.throughput_max_mbps with
    | some tmin, some tmax =>
      some { machine_type := ms.machine_type, family := ms.family,
             disk_type := dp.disk_type, disk_size_gb := dp.disk_size_gb,
             machine_limits := ml, disk_performance := dp,
             effective_performance := EffPerf.provisioned
               (dp.iops_min_r.getD (JVal.num 0)) (dp.iops_max_r.getD (JVal.num 0)) tmin tmax,
             bottleneck := "Configure provisioned performance within limits" }
    | _, _ => none
  else
    match dp.iops_read, dp.iops_write, dp.throughput_read_mbps, dp.throughput_write_mbps with
    | some ir, some iw, some tr, some tw =>
      let bl := bottlenecks ms ir iw tr tw
      some { machine_type := ms.machine_type, family := ms.family,
             disk_type := dp.disk_type, disk_size_gb := dp.disk_size_gb,
             machine_limits := ml, disk_performance := dp,
             effective_performance := EffPerf.numeric
               (min ms.max_disk_iops_read (ir : ℚ))
               (min ms.max_disk_iops_write (iw : ℚ))
               (min (min ms.max_disk_throughput_read_mbps (tr : ℚ)) network_throughput_mbps)
               (min (min ms.max_disk_throughput_write_mbps (tw : ℚ)) network_throughput_mbps),
             bottleneck :=
               if bl.isEmpty then "Machine type is the limiting factor"
               else "Bottleneck: " ++ String.intercalate ", " bl }
    | _, _, _, _ => none

/-- Request body of `POST /api/optimal-disk-size`. -/
structure OptReq where
  machine_type : Option String
  disk_type : Option String
deriving DecidableEq

/-- Response of `POST /api/optimal-disk-size`: an error with an HTTP status,
or the JSON payload `{optimal_size_gb, machine_max_iops, disk_iops_at_optimal}`. -/
inductive OptResponse where
  | err (status : Nat) (msg : String)
  | ok (optimal_size_gb : ℚ) (machine_max_iops : ℚ) (disk_iops_at_optimal : ℚ)
deriving DecidableEq

/-- The IOPS candidate size of `get_optimal_disk_size`: solve the read-IOPS
line against the machine ceiling, recomputing against the disk's own ceiling
when the first answer exceeds it; `iops_per_gb = 0` means unconstrained. -/
def optimalForIops (machine_max_iops baseline ipgr dmaxr max_size : ℚ) : ℚ :=
  if ipgr > 0 then
    let o : ℤ := truncQ ((machine_max_iops - baseline) / ipgr)
    let actual_iops := baseline + (o : ℚ) * ipgr
    if actual_iops > dmaxr then ((truncQ ((dmaxr - baseline) / ipgr) : ℤ) : ℚ)
    else (o : ℚ)
  else max_size

/-- The throughput candidate size of `get_optimal_disk_size`. -/
def optimalForThroughput (machine_max_throughput tpgr tmaxr max_size : ℚ) : ℚ :=
  if tpgr > 0 then
    let o : ℤ := truncQ (machine_max_throughput / tpgr)
    if (o : ℚ) * tpgr > tmaxr then ((truncQ (tmaxr / tpgr) : ℤ) : ℚ)
    else (o : ℚ)
  else max_size

/-- The scaling-disk branch of `get_optimal_disk_size`: the smaller of the
two candidates, clamped into `[min_size_gb, max_size_gb]`.  `none` models
the `KeyError`/`TypeError` on a malformed scaling entry. -/
def optimalSizeScaling (ms : MachineSpecs) (disk_spec : DiskSpec) : Option ℚ :=
  match disk_spec.iops_per_gb, disk_spec.iops_max,
        disk_spec.throughput_per_gb, disk_spec.throughput_max with
  | some ipg, some (JVal.obj dmaxr _), some tpg, some (JVal.obj tmaxr _) =>
    let baseline := (disk_spec.iops_baseline.getD ⟨0, 0⟩).read
    let min_size := disk_spec.min_size_gb.getD 10
    let max_size := disk_spec.max_size_gb.getD 65536
    let optimal_for_iops :=
      optimalForIops ms.max_disk_iops_read baseline ipg.read dmaxr max_size
    let optimal_for_throughput :=
      optimalForThroughput ms.max_disk_throughput_read_mbps tpg.read tmaxr max_size
    some (max min_size (min (min optimal_for_iops optimal_for_throughput) max_size))
  | _, _, _, _ => none

/-- The verification pass of `get_optimal_disk_size`:
`disk_perf.get('iops_read', 0) if disk_perf else 0`. -/
def diskIopsAt (disk_data : List (String × DiskSpec)) (disk_type : String) (size : ℚ) : ℚ :=
  match calculate_disk_performance disk_data disk_type size with
  | some p => ((p.iops_read.getD 0 : ℤ) : ℚ)
  | none => 0

/-- `get_optimal_disk_size` from `src/app.py` (route `POST /api/optimal-disk-size`). -/
def get_optimal_disk_size (disk_data : List (String × DiskSpec))
    (machine_data : List (String × FamilyData)) (req : OptReq) : OptResponse :=
  if pyTruthyS req.machine_type ∧ pyTruthyS req.disk_type then
    let machine_type := req.machine_type.getD ""
    let disk_type := req.disk_type.getD ""
    match disk_data.lookup disk_type with
    | none => OptResponse.err 404 "Disk type not found"
    | some disk_spec =>
      match find_machine_specs machine_data machine_type (some disk_type) with
      | none => OptResponse.err 404 "Machine type not found"
      | some ms =>
        if disk_type = "local-ssd" ∨ pyStartsWith disk_type "hyperdisk" then
          OptResponse.ok 100 ms.max_disk_iops_read (diskIopsAt disk_data disk_type 100)
        else
          match optimalSizeScaling ms disk_spec with
          | none => OptResponse.err 500 "Internal Server Error"
          | some optimal_size =>
            OptResponse.ok optimal_size ms.max_disk_iops_read
              (diskIopsAt disk_data disk_type optimal_size)
  else OptResponse.err 400 "Missing machine_type or disk_type"

/-- Request body of `POST /api/calculate`; the size is modelled as a JSON
integer (or absent). -/
structure CalcRequest where
  machine_type : Option String
  disk_type : Option String
  disk_size_gb : Option ℤ
deriving DecidableEq

/-- Outcome of `POST /api/calculate`, one constructor per return site of the
handler; error constructors carry the data interpolated into the message
(for the size errors: the disk name and the violated bound). -/
inductive CalcResult where
  | missingParams
  | invalidSizeNumber
  | nonPositiveSize
  | unknownDiskType (disk_type : String)
  | sizeTooSmall (disk_name : String) (min_size : ℚ)
  | sizeTooLarge (disk_name : String) (max_size : ℚ)
  | unknownMachineType (machine_type : String)
  | calcFailed
  | internalError
  | ok (r : EffResult)
deriving DecidableEq

/-- HTTP status of each `calculate` outcome. -/
def statusOf : CalcResult → Nat
  | CalcResult.missingParams => 400
  | CalcResult.invalidSizeNumber => 400
  | CalcResult.nonPositiveSize => 400
  | CalcResult.unknownDiskType _ => 404
  | CalcResult.sizeTooSmall _ _ => 400
  | CalcResult.sizeTooLarge _ _ => 400
  | CalcResult.unknownMachineType _ => 404
  | CalcResult.calcFailed => 500
  | CalcResult.internalError => 500
  | CalcResult.ok _ => 200

/-- `calculate` from `src/app.py` (route `POST /api/calculate`): truthiness
check of the three fields, positivity check, disk-type lookup, size-bounds
check with defaults 10/65536, machine lookup, then the calculator core. -/
def calculate (disk_data : List (String × DiskSpec))
    (machine_data : List (String × FamilyData)) (req : CalcRequest) : CalcResult :=
  if pyTruthyS req.machine_type ∧ pyTruthyS req.disk_type ∧ pyTruthyZ req.disk_size_gb then
    let machine_type := req.machine_type.getD ""
    let disk_type := req.disk_type.getD ""
    let disk_size_gb : ℤ := req.disk_size_gb.getD 0
    if disk_size_gb ≤ 0 then CalcResult.nonPositiveSize
    else
      match disk_data.lookup disk_type with
      | none => CalcResult.unknownDiskType disk_type
      | some disk_spec =>
        let min_size := disk_spec.min_size_gb.getD 10
        let max_size := disk_spec.max_size_gb.getD 65536
        if (disk_size_gb : ℚ) < min_size then CalcResult.sizeTooSmall disk_spec.name min_size
        else if (disk_size_gb : ℚ) > max_size then CalcResult.sizeTooLarge disk_spec.name max_size
        else
          match find_machine_specs machine_data machine_type (some disk_type) with
          | none => CalcResult.unknownMachineType machine_type
          | some ms =>
            match calculate_disk_performance disk_data disk_type (disk_size_gb : ℚ) with
            | none => CalcResult.calcFailed
            | some dp =>
              match calculate_effective_performance ms dp with
              | none => CalcResult.internalError
              | some r => CalcResult.ok r
  else CalcResult.missingParams

/-! ### Helper lemmas about truncation -/

theorem truncQ_intCast (n : ℤ) : truncQ (n : ℚ) = n := by
  simp [truncQ, Rat.num_intCast, Rat.den_intCast]

theorem truncQ_eq_floor_of_nonneg {q : ℚ} (h : 0 ≤ q) : truncQ q = ⌊q⌋ := by
  rw [Rat.floor_def, truncQ]
  exact Int.tdiv_eq_ediv (Rat.num_nonneg.mpr h) (Int.ofNat_nonneg q.den)

theorem truncQ_le_of_nonneg {q : ℚ} (h : 0 ≤ q) : (truncQ q : ℚ) ≤ q := by
  rw [truncQ_eq_floor_of_nonneg h]
  exact Int.floor_le q

theorem truncQ_nonpos_of_neg {q : ℚ} (h : q < 0) : (truncQ q : ℚ) ≤ 0 := by
  have hnum : q.num ≤ 0 := le_of_lt (Rat.num_neg.mpr h)
  have h1 : 0 ≤ (-q.num).tdiv (q.den : ℤ) :=
    Int.tdiv_nonneg (by omega) (Int.ofNat_nonneg q.den)
  have h2 : truncQ q ≤ 0 := by
    have := Int.neg_tdiv q.num (q.den : ℤ)
    simp only [truncQ]
    omega
  exact_mod_cast h2

theorem truncQ_le_bound {q M : ℚ} (hq : q ≤ M) (hM : 0 ≤ M) : (truncQ q : ℚ) ≤ M := by
  rcases le_or_lt 0 q with h | h
  · exact le_trans (truncQ_le_of_nonneg h) hq
  · exact le_trans (truncQ_nonpos_of_neg h) hM

/-! ### Claim theorems -/

/-- C1: for every non-provisioned (non-hyperdisk) disk computation, the
effective performance returned by `calculate_effective_performance` is, per
direction, `effective_iops = min(machine_iops, disk_iops)` and
`effective_throughput = min(machine_throughput, disk_throughput, network_mbps)`,
so each effective value never exceeds any of its contributing ceilings. -/
theorem c1_effective_never_exceeds_ceilings (ms : MachineSpecs) (dp : DiskPerfResult)
    (ir iw tr tw : ℤ)
    (hh : pyStartsWith dp.disk_type "hyperdisk" = false)
    (h1 : dp.iops_read = some ir) (h2 : dp.iops_write = some iw)
    (h3 : dp.throughput_read_mbps = some tr) (h4 : dp.throughput_write_mbps = some tw) :
    ∃ r : EffResult, calculate_effective_performance ms dp = some r ∧
      r.effective_performance = EffPerf.numeric
        (min ms.max_disk_iops_read (ir : ℚ))
        (min ms.max_disk_iops_write (iw : ℚ))
        (min (min ms.max_disk_throughput_read_mbps (tr : ℚ)) (ms.network_bandwidth_gbps * 125))
        (min (min ms.max_disk_throughput_write_mbps (tw : ℚ)) (ms.network_bandwidth_gbps * 125)) ∧
      min ms.max_disk_iops_read (ir : ℚ) ≤ ms.max_disk_iops_read ∧
      min ms.max_disk_iops_read (ir : ℚ) ≤ (ir : ℚ) ∧
      min ms.max_disk_iops_write (iw : ℚ) ≤ ms.max_disk_iops_write ∧
      min ms.max_disk_iops_write (iw : ℚ) ≤ (iw : ℚ) ∧
      min (min ms.max_disk_throughput_read_mbps (tr : ℚ)) (ms.network_bandwidth_gbps * 125) ≤
        ms.max_disk_throughput_read_mbps ∧
      min (min ms.max_disk_throughput_read_mbps (tr : ℚ)) (ms.network_bandwidth_gbps * 125) ≤
        (tr : ℚ) ∧
      min (min ms.max_disk_throughput_read_mbps (tr : ℚ)) (ms.network_bandwidth_gbps * 125) ≤
        ms.network_bandwidth_gbps * 125 ∧
      min (min ms.max_disk_throughput_write_mbps (tw : ℚ)) (ms.network_bandwidth_gbps * 125) ≤
        ms.max_disk_throughput_write_mbps ∧
      min (min ms.max_disk_throughput_write_mbps (tw : ℚ)) (ms.network_bandwidth_gbps * 125) ≤
        (tw : ℚ) ∧
      min (min ms.max_disk_throughput_write_mbps (tw : ℚ)) (ms.network_bandwidth_gbps * 125) ≤
        ms.network_bandwidth_gbps * 125 := by
  simp only [calculate_effective_performance, hh, Bool.false_eq_true, if_false, h1, h2, h3, h4]
  exact ⟨_, rfl, rfl, min_le_left _ _, min_le_right _ _, min_le_left _ _, min_le_right _ _,
    le_trans (min_le_left _ _) (min_le_left _ _),
    le_trans (min_le_left _ _) (min_le_right _ _), min_le_right _ _,
    le_trans (min_le_left _ _) (min_le_left _ _),
    le_trans (min_le_left _ _) (min_le_right _ _), min_le_right _ _⟩

/-- Machine specs used to instantiate the combiner claims. -/
def c1MS : MachineSpecs :=
  { family := "general", machine_type := "n2-standard-8", vcpu := 8, memory_gb := 32,
    network_bandwidth_gbps := 16, cpu_platform := "Intel Cascade Lake",
    max_disk_iops_read := 50000, max_disk_iops_write := 50000,
    max_disk_throughput_read_mbps := 800, max_disk_throughput_write_mbps := 800 }

/-- A concrete non-hyperdisk disk-performance record. -/
def c1DP : DiskPerfResult :=
  { disk_type := "pd-ssd", disk_name := "SSD PD", disk_size_gb := 500,
    iops_read := some 15000, iops_write := some 15000,
    throughput_read_mbps := some 240, throughput_write_mbps := some 240 }

/-- Witness for C1 at a concrete machine and disk result. -/
theorem c1_witness :
    ∃ r : EffResult, calculate_effective_performance c1MS c1DP = some r ∧
      r.effective_performance = EffPerf.numeric 15000 15000 240 240 := by
  obtain ⟨r, hr, he, -⟩ :=
    c1_effective_never_exceeds_ceilings c1MS c1DP 15000 15000 240 240 (by decide) rfl rfl rfl rfl
  refine ⟨r, hr, ?_⟩
  rw [he]
  norm_num [c1MS]

theorem mem_ite_singleton {c : Prop} [Decidable c] {s x : String}
    (h : x ∈ if c then [s] else []) : x = s := by
  by_cases hc : c
  · rw [if_pos hc] at h
    simpa using h
  · rw [if_neg hc] at h
    simp at h

theorem mem_ite_ite_pair {c d : Prop} [Decidable c] [Decidable d] {s1 s2 x : String}
    (h : x ∈ if c then (if d then [s1] else [s2]) else []) : x = s1 ∨ x = s2 := by
  by_cases hc : c
  · rw [if_pos hc] at h
    by_cases hd : d
    · rw [if_pos hd] at h
      exact Or.inl (by simpa using h)
    · rw [if_neg hd] at h
      exact Or.inr (by simpa using h)
  · rw [if_neg hc] at h
    simp at h

/-- C2: in `calculate_effective_performance`, when the effective throughput of
a direction is strictly below the machine ceiling and the disk's raw
throughput equals the network ceiling exactly, the bottleneck list contains
the disk-throughput entry and not the network entry for that direction (disk
wins ties against network); and the combiner's bottleneck string is built
from exactly that list. -/
theorem c2_throughput_tie_goes_to_disk (ms : MachineSpecs) (ir iw tr tw : ℤ) :
    (min (min ms.max_disk_throughput_read_mbps (tr : ℚ)) (ms.network_bandwidth_gbps * 125) <
        ms.max_disk_throughput_read_mbps →
      (tr : ℚ) = ms.network_bandwidth_gbps * 125 →
      "disk throughput (read)" ∈ bottlenecks ms ir iw tr tw ∧
      "network bandwidth (read)" ∉ bottlenecks ms ir iw tr tw) ∧
    (min (min ms.max_disk_throughput_write_mbps (tw : ℚ)) (ms.network_bandwidth_gbps * 125) <
        ms.max_disk_throughput_write_mbps →
      (tw : ℚ) = ms.network_bandwidth_gbps * 125 →
      "disk throughput (write)" ∈ bottlenecks ms ir iw tr tw ∧
      "network bandwidth (write)" ∉ bottlenecks ms ir iw tr tw) ∧
    (∀ (dp : DiskPerfResult) (r : EffResult),
      pyStartsWith dp.disk_type "hyperdisk" = false →
      dp.iops_read = some ir → dp.iops_write = some iw →
      dp.throughput_read_mbps = some tr → dp.throughput_write_mbps = some tw →
      calculate_effective_performance ms dp = some r →
      (bottlenecks ms ir iw tr tw).isEmpty = false →
      r.bottleneck = "Bottleneck: " ++ String.intercalate ", " (bottlenecks ms ir iw tr tw)) := by
  refine ⟨?_, ?_, ?_⟩
  · intro hlt heq
    have hle : (tr : ℚ) ≤ ms.network_bandwidth_gbps * 125 := le_of_eq heq
    constructor
    · simp only [bottlenecks]
      rw [if_pos hlt, if_pos hle]
      exact List.mem_append_left _ (List.mem_append_right _ (by simp))
    · intro hmem
      simp only [bottlenecks] at hmem
      rw [if_pos hlt, if_pos hle] at hmem
      rcases List.mem_append.mp hmem with h | h
      · rcases List.mem_append.mp h with h2 | h2
        · rcases List.mem_append.mp h2 with h3 | h3
          · have := mem_ite_singleton h3
            simp at this
          · have := mem_ite_singleton h3
            simp at this
        · have := List.mem_singleton.mp h2
          simp at this
      · rcases mem_ite_ite_pair h with h2 | h2 <;> simp at h2
  · intro hlt heq
    have hle : (tw : ℚ) ≤ ms.network_bandwidth_gbps * 125 := le_of_eq heq
    constructor
    · simp only [bottlenecks]
      rw [if_pos hlt, if_pos hle]
      exact List.mem_append_right _ (by simp)
    · intro hmem
      simp only [bottlenecks] at hmem
      rw [if_pos hlt, if_pos hle] at hmem
      rcases List.mem_append.mp hmem with h | h
      · rcases List.mem_append.mp h with h2 | h2
        · rcases List.mem_append.mp h2 with h3 | h3
          · have := mem_ite_singleton h3
            simp at this
          · have := mem_ite_singleton h3
            simp at this
        · rcases mem_ite_ite_pair h2 with h3 | h3 <;> simp at h3
      · have := List.mem_singleton.mp h
        simp at this
  · intro dp r hh h1 h2 h3 h4 hr hne
    simp only [calculate_effective_performance, hh, Bool.false_eq_true, if_false,
      h1, h2, h3, h4, hne] at hr
    rw [← Option.some_inj.mp hr]

/-- Machine specs where the network ceiling (16 Gbps = 2000 MB/s) ties a
disk throughput of 2000 MB/s below the 3000 MB/s machine ceiling. -/
def c2MS : MachineSpecs :=
  { family := "general", machine_type := "n2-standard-32", vcpu := 32, memory_gb := 128,
    network_bandwidth_gbps := 16, cpu_platform := "Intel Cascade Lake",
    max_disk_iops_read := 50000, max_disk_iops_write := 50000,
    max_disk_throughput_read_mbps := 3000, max_disk_throughput_write_mbps := 3000 }

/-- Witness for C2 at a concrete tie between disk and network throughput. -/
theorem c2_witness :
    "disk throughput (read)" ∈ bottlenecks c2MS 100 100 2000 2000 ∧
    "network bandwidth (read)" ∉ bottlenecks c2MS 100 100 2000 2000 := by
  exact (c2_throughput_tie_goes_to_disk c2MS 100 100 2000 2000).1
    (by norm_num [c2MS]) (by norm_num [c2MS])

/-- Disk catalog for the C4 scenario: a balanced disk with
`iops_per_gb.read = 6` and `iops_max.read = 80000`. -/
def c4DiskData : List (String × DiskSpec) :=
  [("balanced",
    { name := "Balanced persistent disk", iops_per_gb := some ⟨6, 6⟩,
      iops_max := some (JVal.obj 80000 80000), throughput_per_gb := some ⟨0.28, 0.28⟩,
      throughput_max := some (JVal.obj 1200 1200),
      min_size_gb := some 10, max_size_gb := some 65536 })]

/-- Machine for the C4 scenario: `max_disk_iops_read = 60000`,
`network_bandwidth_gbps = 32`. -/
def c4MS : MachineSpecs :=
  { family := "general", machine_type := "n2-standard-16", vcpu := 16, memory_gb := 64,
    network_bandwidth_gbps := 32, cpu_platform := "Intel Cascade Lake",
    max_disk_iops_read := 60000, max_disk_iops_write := 60000,
    max_disk_throughput_read_mbps := 1200, max_disk_throughput_write_mbps := 1200 }

/-- The disk-performance record the C4 scenario computes at 5000 GB. -/
def c4P : DiskPerfResult :=
  { disk_type := "balanced", disk_name := "Balanced persistent disk", disk_size_gb := 5000,
    iops_read := some 30000, iops_write := some 30000,
    throughput_read_mbps := some 1200, throughput_write_mbps := some 1200 }

/-- C4: for every Scaling disk type, `calculate_disk_performance` computes,
per direction, `iops = int(min(baseline_or_0 + size * iops_per_gb, iops_max))`
and `throughput = int(min(size * throughput_per_gb, throughput_max))` with no
baseline term for throughput, truncated to integer; and in the concrete
scenario (machine 60000 read IOPS / 32 Gbps, balanced disk at 5000 GB) the raw
and effective read IOPS are 30000 and the bottleneck reports disk IOPS (read). -/
theorem c4_scaling_formula_and_scenario :
    (∀ (dd : List (String × DiskSpec)) (dt : String) (s : ℚ) (spec : DiskSpec)
       (ipg tpg : ReadWrite) (imr imw tmr tmw : ℚ),
      dd.lookup dt = some spec → dt ≠ "local-ssd" → pyStartsWith dt "hyperdisk" = false →
      spec.iops_per_gb = some ipg → spec.iops_max = some (JVal.obj imr imw) →
      spec.throughput_per_gb = some tpg → spec.throughput_max = some (JVal.obj tmr tmw) →
      calculate_disk_performance dd dt s = some
        { disk_type := dt, disk_name := spec.name, disk_size_gb := s,
          iops_read := some (truncQ (min ((spec.iops_baseline.getD ⟨0, 0⟩).read + s * ipg.read) imr)),
          iops_write := some (truncQ (min ((spec.iops_baseline.getD ⟨0, 0⟩).write + s * ipg.write) imw)),
          throughput_read_mbps := some (truncQ (min (s * tpg.read) tmr)),
          throughput_write_mbps := some (truncQ (min (s * tpg.write) tmw)) }) ∧
    (calculate_disk_performance c4DiskData "balanced" 5000 = some c4P ∧
      c4P.iops_read = some 30000 ∧
      (calculate_effective_performance c4MS c4P).map (fun r => r.effective_performance) =
        some (EffPerf.numeric 30000 30000 1200 1200) ∧
      "disk IOPS (read)" ∈ bottlenecks c4MS 30000 30000 1200 1200) := by
  refine ⟨?_, ?_, rfl, ?_, ?_⟩
  · intro dd dt s spec ipg tpg imr imw tmr tmw hlk hls hh hipg himax htpg htmax
    simp only [calculate_disk_performance, hlk, if_neg hls, hh, Bool.false_eq_true, if_false,
      hipg, himax, htpg, htmax]
  · norm_num [calculate_disk_performance, c4DiskData, c4P, List.lookup, truncQ]
    decide
  · norm_num [calculate_effective_performance, c4MS, c4P, bottlenecks]
    exact ⟨_, ⟨by decide, rfl⟩, rfl⟩
  · norm_num [bottlenecks, c4MS]

/-- Witness for C4's formula part, applying it to the scenario catalog at
size 5000. -/
theorem c4_witness :
    calculate_disk_performance c4DiskData "balanced" 5000 = some
      { disk_type := "balanced", disk_name := "Balanced persistent disk", disk_size_gb := 5000,
        iops_read := some (truncQ (min ((0 : ℚ) + 5000 * 6) 80000)),
        iops_write := some (truncQ (min ((0 : ℚ) + 5000 * 6) 80000)),
        throughput_read_mbps := some (truncQ (min ((5000 : ℚ) * 0.28) 1200)),
        throughput_write_mbps := some (truncQ (min ((5000 : ℚ) * 0.28) 1200)) } := by
  exact c4_scaling_formula_and_scenario.1 c4DiskData "balanced" 5000 _ ⟨6, 6⟩ ⟨0.28, 0.28⟩
    80000 80000 1200 1200 rfl (by decide) (by decide) rfl rfl rfl rfl

/-- C5: for local-ssd disks, `calculate_disk_performance` multiplies the fixed
per-device values by `num_devices = max(1, size/375)` (fractional) and
truncates; with integer fixed values, every field at 750 GB is exactly twice
the corresponding field at 375 GB. -/
theorem c5_local_ssd_doubling (dd : List (String × DiskSpec)) (spec : DiskSpec) (a b c d : ℤ)
    (hlk : dd.lookup "local-ssd" = some spec)
    (hif : spec.iops_fixed = some (JVal.obj (a : ℚ) (b : ℚ)))
    (htf : spec.throughput_fixed = some (JVal.obj (c : ℚ) (d : ℚ))) :
    calculate_disk_performance dd "local-ssd" 375 = some
      { disk_type := "local-ssd", disk_name := spec.name, disk_size_gb := 375,
        iops_read := some a, iops_write := some b,
        throughput_read_mbps := some c, throughput_write_mbps := some d } ∧
    calculate_disk_performance dd "local-ssd" 750 = some
      { disk_type := "local-ssd", disk_name := spec.name, disk_size_gb := 750,
        iops_read := some (2 * a), iops_write := some (2 * b),
        throughput_read_mbps := some (2 * c), throughput_write_mbps := some (2 * d) } := by
  have hdub : ∀ z : ℤ, truncQ ((z : ℚ) * 2) = 2 * z := by
    intro z
    have hz : (z : ℚ) * 2 = ((2 * z : ℤ) : ℚ) := by push_cast; ring
    rw [hz, truncQ_intCast]
  constructor
  · simp only [calculate_disk_performance, hlk, hif, htf, reduceIte]
    simp [truncQ_intCast]
  · simp only [calculate_disk_performance, hlk, hif, htf, reduceIte]
    have hmax : max (1 : ℚ) ((750 : ℚ) / 375) = 2 := by norm_num
    simp [hmax, hdub]

/-- Disk catalog with a concrete local-ssd entry for the C5 witness. -/
def c5DiskData : List (String × DiskSpec) :=
  [("local-ssd",
    { name := "Local SSD", iops_fixed := some (JVal.obj 170000 90000),
      throughput_fixed := some (JVal.obj 660 350) })]

/-- Witness for C5 on a concrete local-ssd catalog entry. -/
theorem c5_witness :
    calculate_disk_performance c5DiskData "local-ssd" 375 = some
      { disk_type := "local-ssd", disk_name := "Local SSD", disk_size_gb := 375,
        iops_read := some 170000, iops_write := some 90000,
        throughput_read_mbps := some 660, throughput_write_mbps := some 350 } ∧
    calculate_disk_performance c5DiskData "local-ssd" 750 = some
      { disk_type := "local-ssd", disk_name := "Local SSD", disk_size_gb := 750,
        iops_read := some 340000, iops_write := some 180000,
        throughput_read_mbps := some 1320, throughput_write_mbps := some 700 } := by
  have h := c5_local_ssd_doubling c5DiskData _ 170000 90000 660 350 rfl rfl rfl
  norm_num [c5DiskData] at h
  exact h

/-- C6: `find_machine_specs` resolves disk limits in order: a matching
per-disk-type entry if present; otherwise (absent key, or no/empty disk type
given) the first entry of the map in insertion order; and for machines
without per-disk-type limits, the flat fields with unset ones defaulting
to 0. -/
theorem c6_limit_resolution_order (f : String) (fd : FamilyData)
    (rest : List (String × FamilyData)) (mt : String) (m : Machine) (dt : Option String)
    (hlk : fd.machines.lookup mt = some m) :
    (∀ (d : String) (dl : List (String × DiskLimit)) (l : DiskLimit),
      dt = some d → d ≠ "" → m.disk_limits = some dl → dl.lookup d = some l →
      ∃ r : MachineSpecs, find_machine_specs ((f, fd) :: rest) mt dt = some r ∧
        r.max_disk_iops_read = l.max_disk_iops_read ∧
        r.max_disk_iops_write = l.max_disk_iops_write ∧
        r.max_disk_throughput_read_mbps = l.max_disk_throughput_read_mbps ∧
        r.max_disk_throughput_write_mbps = l.max_disk_throughput_write_mbps) ∧
    (∀ (dl : List (String × DiskLimit)) (k0 : String) (l0 : DiskLimit)
       (dlrest : List (String × DiskLimit)),
      m.disk_limits = some dl → dl = (k0, l0) :: dlrest →
      (pyTruthyS dt = false ∨ dl.lookup (dt.getD "") = none) →
      ∃ r : MachineSpecs, find_machine_specs ((f, fd) :: rest) mt dt = some r ∧
        r.max_disk_iops_read = l0.max_disk_iops_read ∧
        r.max_disk_iops_write = l0.max_disk_iops_write ∧
        r.max_disk_throughput_read_mbps = l0.max_disk_throughput_read_mbps ∧
        r.max_disk_throughput_write_mbps = l0.max_disk_throughput_write_mbps) ∧
    (m.disk_limits = none →
      ∃ r : MachineSpecs, find_machine_specs ((f, fd) :: rest) mt dt = some r ∧
        r.max_disk_iops_read = m.max_disk_iops_read.getD 0 ∧
        r.max_disk_iops_write = m.max_disk_iops_write.getD 0 ∧
        r.max_disk_throughput_read_mbps = m.max_disk_throughput_read_mbps.getD 0 ∧
        r.max_disk_throughput_write_mbps = m.max_disk_throughput_write_mbps.getD 0) := by
  have hfm : find_machine_specs ((f, fd) :: rest) mt dt = resolveLimits f mt m dt := by
    simp [find_machine_specs, hlk]
  refine ⟨?_, ?_, ?_⟩
  · intro d dl l hd hne hdl hl
    subst hd
    refine ⟨limitsResult f mt m l, ?_, rfl, rfl, rfl, rfl⟩
    rw [hfm]
    simp [resolveLimits, hdl, pyTruthyS, hne, hl]
  · intro dl k0 l0 dlrest hdl hcons hfall
    subst hcons
    refine ⟨limitsResult f mt m l0, ?_, rfl, rfl, rfl, rfl⟩
    rw [hfm]
    rcases hfall with hfalse | hnone
    · simp [resolveLimits, hdl, hfalse]
    · by_cases ht : pyTruthyS dt
      · simp [resolveLimits, hdl, ht, hnone]
      · simp [resolveLimits, hdl, ht]
  · intro hnone
    exact ⟨flatResult f mt m, by rw [hfm]; simp [resolveLimits, hnone], rfl, rfl, rfl, rfl⟩

/-- A machine with a two-entry `disk_limits` map for the C6 witness. -/
def c6M : Machine :=
  { vcpu := 4, memory_gb := 16, network_bandwidth_gbps := 10,
    cpu_platform := some "Intel Skylake",
    disk_limits := some [("pd-standard", ⟨15000, 15000, 240, 240⟩),
                         ("pd-ssd", ⟨25000, 25000, 480, 480⟩)] }

/-- Family data for the C6 witness. -/
def c6FD : FamilyData :=
  { description := "General purpose", machines := [("n1-standard-4", c6M)] }

/-- Machine catalog for the C6 witness. -/
def c6MD : List (String × FamilyData) :=
  [("general", c6FD)]

/-- Witness for C6: the dedicated `pd-ssd` entry is used when present, the
first entry is used for an absent key, and flat limits are used without
`disk_limits`. -/
theorem c6_witness :
    (∃ r : MachineSpecs, find_machine_specs c6MD "n1-standard-4" (some "pd-ssd") = some r ∧
      r.max_disk_iops_read = 25000) ∧
    (∃ r : MachineSpecs, find_machine_specs c6MD "n1-standard-4" (some "pd-balanced") = some r ∧
      r.max_disk_iops_read = 15000) := by
  constructor
  · obtain ⟨r, hr, h1, -⟩ :=
      (c6_limit_resolution_order "general" c6FD [] "n1-standard-4" c6M (some "pd-ssd")
          (by decide)).1
        "pd-ssd" _ ⟨25000, 25000, 480, 480⟩ rfl (by decide) rfl (by decide)
    exact ⟨r, hr, h1⟩
  · obtain ⟨r, hr, h1, -⟩ :=
      (c6_limit_resolution_order "general" c6FD [] "n1-standard-4" c6M (some "pd-balanced")
          (by decide)).2.1
        _ "pd-standard" ⟨15000, 15000, 240, 240⟩ _ rfl rfl (Or.inr (by decide))
    exact ⟨r, hr, h1⟩

/-- C7: for a Scaling disk type, the calculate endpoint answers HTTP 400
whenever the size is below `min_size_gb` (naming the minimum) or above
`max_size_gb` (naming the maximum), and never answers 400 for an in-bounds
size on otherwise well-formed input (it returns the computed result). -/
theorem c7_size_bounds_validation (dd : List (String × DiskSpec))
    (md : List (String × FamilyData)) (mt dt : String) (spec : DiskSpec) (s : ℤ)
    (hmt : mt ≠ "") (hdt : dt ≠ "")
    (hls : dt ≠ "local-ssd") (hh : pyStartsWith dt "hyperdisk" = false)
    (hlk : dd.lookup dt = some spec) :
    ((s : ℚ) < spec.min_size_gb.getD 10 →
      statusOf (calculate dd md ⟨some mt, some dt, some s⟩) = 400) ∧
    (0 < s → (s : ℚ) < spec.min_size_gb.getD 10 →
      calculate dd md ⟨some mt, some dt, some s⟩ =
        CalcResult.sizeTooSmall spec.name (spec.min_size_gb.getD 10)) ∧
    (0 < s → spec.min_size_gb.getD 10 ≤ (s : ℚ) → spec.max_size_gb.getD 65536 < (s : ℚ) →
      calculate dd md ⟨some mt, some dt, some s⟩ =
        CalcResult.sizeTooLarge spec.name (spec.max_size_gb.getD 65536)) ∧
    (∀ (ms : MachineSpecs) (ipg tpg : ReadWrite) (imr imw tmr tmw : ℚ),
      0 < s → spec.min_size_gb.getD 10 ≤ (s : ℚ) → (s : ℚ) ≤ spec.max_size_gb.getD 65536 →
      find_machine_specs md mt (some dt) = some ms →
      spec.iops_per_gb = some ipg → spec.iops_max = some (JVal.obj imr imw) →
      spec.throughput_per_gb = some tpg → spec.throughput_max = some (JVal.obj tmr tmw) →
      ∃ r : EffResult, calculate dd md ⟨some mt, some dt, some s⟩ = CalcResult.ok r) := by
  refine ⟨?_, ?_, ?_, ?_⟩
  · intro hsmall
    by_cases hs0 : s = 0
    · subst hs0
      simp [calculate, pyTruthyZ, statusOf]
    · rcases lt_or_lt_iff_ne.mpr hs0 with hneg | hpos
      · have hle : s ≤ 0 := le_of_lt hneg
        simp [calculate, pyTruthyS, pyTruthyZ, hmt, hdt, hs0, hle, statusOf]
      · have hns : ¬s ≤ 0 := not_le.mpr hpos
        simp [calculate, pyTruthyS, pyTruthyZ, hmt, hdt, hs0, hns, hlk, hsmall, statusOf]
  · intro hpos hsmall
    have hns : ¬s ≤ 0 := not_le.mpr hpos
    have hs0 : s ≠ 0 := ne_of_gt hpos
    simp [calculate, pyTruthyS, pyTruthyZ, hmt, hdt, hs0, hns, hlk, hsmall]
  · intro hpos hmin hmax
    have hns : ¬s ≤ 0 := not_le.mpr hpos
    have hs0 : s ≠ 0 := ne_of_gt hpos
    have hnlt : ¬(s : ℚ) < spec.min_size_gb.getD 10 := not_lt.mpr hmin
    simp [calculate, pyTruthyS, pyTruthyZ, hmt, hdt, hs0, hns, hlk, hnlt, hmax]
  · intro ms ipg tpg imr imw tmr tmw hpos hmin hmax hfm hipg himax htpg htmax
    have hns : ¬s ≤ 0 := not_le.mpr hpos
    have hs0 : s ≠ 0 := ne_of_gt hpos
    have hnlt : ¬(s : ℚ) < spec.min_size_gb.getD 10 := not_lt.mpr hmin
    have hngt : ¬(s : ℚ) > spec.max_size_gb.getD 65536 := not_lt.mpr hmax
    simp only [calculate, pyTruthyS, pyTruthyZ, hmt, hdt, ne_eq, hs0, not_false_eq_true,
      bne_iff_ne, and_self, if_true, Option.getD_some, hns, if_false, hlk, hnlt, hngt, hfm,
      calculate_disk_performance, hls, hh, Bool.false_eq_true, hipg, himax, htpg, htmax,
      calculate_effective_performance]
    exact ⟨_, rfl⟩

/-- C8: any request with non-positive `disk_size_gb` is rejected with
HTTP 400 before any catalog lookup: the outcome does not depend on either
catalog (so neither is consulted and no disk computation runs). -/
theorem c8_nonpositive_rejected_before_lookup
    (dd dd2 : List (String × DiskSpec)) (md md2 : List (String × FamilyData))
    (mt dt : Option String) (s : ℤ) (hs : s ≤ 0) :
    calculate dd md ⟨mt, dt, some s⟩ = calculate dd2 md2 ⟨mt, dt, some s⟩ ∧
    statusOf (calculate dd md ⟨mt, dt, some s⟩) = 400 := by
  by_cases h0 : s = 0
  · subst h0
    simp [calculate, pyTruthyZ, statusOf]
  · constructor <;> by_cases ha : pyTruthyS mt <;> by_cases hb : pyTruthyS dt <;>
      simp [calculate, pyTruthyZ, h0, ha, hb, hs, statusOf]

/-- C9: the min/max size-bounds check of the calculate endpoint applies to
every disk type present in the catalog, substituting the defaults
`min_size_gb = 10` and `max_size_gb = 65536` when the entry omits them. -/
theorem c9_bounds_checked_for_all_disk_types (dd : List (String × DiskSpec))
    (md : List (String × FamilyData)) (mt dt : String) (spec : DiskSpec) (s : ℤ)
    (hmt : mt ≠ "") (hdt : dt ≠ "") (hlk : dd.lookup dt = some spec) (hpos : 0 < s) :
    ((s : ℚ) < spec.min_size_gb.getD 10 →
      calculate dd md ⟨some mt, some dt, some s⟩ =
        CalcResult.sizeTooSmall spec.name (spec.min_size_gb.getD 10)) ∧
    (spec.min_size_gb.getD 10 ≤ (s : ℚ) → spec.max_size_gb.getD 65536 < (s : ℚ) →
      calculate dd md ⟨some mt, some dt, some s⟩ =
        CalcResult.sizeTooLarge spec.name (spec.max_size_gb.getD 65536)) := by
  have hns : ¬s ≤ 0 := not_le.mpr hpos
  have hs0 : s ≠ 0 := ne_of_gt hpos
  constructor
  · intro hsmall
    simp [calculate, pyTruthyS, pyTruthyZ, hmt, hdt, hs0, hns, hlk, hsmall]
  · intro hmin hmax
    have hnlt : ¬(s : ℚ) < spec.min_size_gb.getD 10 := not_lt.mpr hmin
    simp [calculate, pyTruthyS, pyTruthyZ, hmt, hdt, hs0, hns, hlk, hnlt, hmax]

/-- Disk catalog with a scaling pd-ssd entry for the route witnesses. -/
def c7DD : List (String × DiskSpec) :=
  [("pd-ssd",
    { name := "SSD persistent disk", iops_per_gb := some ⟨30, 30⟩,
      iops_max := some (JVal.obj 100000 100000), throughput_per_gb := some ⟨0.48, 0.48⟩,
      throughput_max := some (JVal.obj 1200 1200),
      min_size_gb := some 10, max_size_gb := some 65536 })]

/-- Legacy flat-limit machine for the route witnesses. -/
def c7M : Machine :=
  { vcpu := 8, memory_gb := 32, network_bandwidth_gbps := 16,
    max_disk_iops_read := some 15000, max_disk_iops_write := some 15000,
    max_disk_throughput_read_mbps := some 240, max_disk_throughput_write_mbps := some 240 }

/-- Machine catalog for the route witnesses. -/
def c7MD : List (String × FamilyData) :=
  [("general", { description := "General purpose", machines := [("n1-standard-8", c7M)] })]

/-- Witness for C7: 5 GB is rejected naming the 10 GB minimum; 100 GB is
accepted and computes a result. -/
theorem c7_witness :
    calculate c7DD c7MD ⟨some "n1-standard-8", some "pd-ssd", some 5⟩ =
      CalcResult.sizeTooSmall "SSD persistent disk" 10 ∧
    (∃ r : EffResult,
      calculate c7DD c7MD ⟨some "n1-standard-8", some "pd-ssd", some 100⟩ =
        CalcResult.ok r) := by
  constructor
  · have h := (c7_size_bounds_validation c7DD c7MD "n1-standard-8" "pd-ssd" _ 5
      (by decide) (by decide) (by decide) (by decide) rfl).2.1
      (by norm_num) (by norm_num)
    simpa using h
  · obtain ⟨r, hr⟩ := (c7_size_bounds_validation c7DD c7MD "n1-standard-8" "pd-ssd" _ 100
      (by decide) (by decide) (by decide) (by decide) rfl).2.2.2
      _ ⟨30, 30⟩ ⟨0.48, 0.48⟩ 100000 100000 1200 1200
      (by norm_num) (by norm_num) (by norm_num) rfl rfl rfl rfl rfl
    exact ⟨r, hr⟩

/-- Witness for C8: a zero size is rejected with 400 identically over the
empty catalogs and over populated ones. -/
theorem c8_witness :
    calculate [] [] ⟨some "n1-standard-8", some "pd-ssd", some 0⟩ =
      calculate c7DD c7MD ⟨some "n1-standard-8", some "pd-ssd", some 0⟩ ∧
    statusOf (calculate [] [] ⟨some "n1-standard-8", some "pd-ssd", some 0⟩) = 400 :=
  c8_nonpositive_rejected_before_lookup [] c7DD [] c7MD
    (some "n1-standard-8") (some "pd-ssd") 0 (by decide)

/-- Disk catalog with a hyperdisk entry that omits both size bounds. -/
def c9DD : List (String × DiskSpec) :=
  [("hyperdisk-extreme",
    { name := "Hyperdisk Extreme", iops_min := some (JVal.num 1000),
      iops_max := some (JVal.num 350000), throughput_min := some (JVal.num 100),
      throughput_max := some (JVal.num 5000), note := some "Provisioned IOPS disk" })]

/-- Witness for C9: a 5 GB request for a hyperdisk entry without bounds is
rejected naming the substituted default minimum of 10 GB. -/
theorem c9_witness :
    calculate c9DD c7MD ⟨some "n1-standard-8", some "hyperdisk-extreme", some 5⟩ =
      CalcResult.sizeTooSmall "Hyperdisk Extreme" 10 := by
  have h := (c9_bounds_checked_for_all_disk_types c9DD c7MD "n1-standard-8"
    "hyperdisk-extreme" _ 5 (by decide) (by decide) rfl (by norm_num)).1 (by norm_num)
  simpa using h

/-- C10: for every hyperdisk disk type and machine found in the catalogs, the
optimal-disk-size endpoint returns `optimal_size_gb = 100` and
`disk_iops_at_optimal = 0`, because the provisioned performance result has no
`iops_read` key and the handler substitutes 0. -/
theorem c10_hyperdisk_optimal_sentinel (dd : List (String × DiskSpec))
    (md : List (String × FamilyData)) (mt dt : String) (spec : DiskSpec)
    (ms : MachineSpecs) (tmin tmax : JVal) (nt : String)
    (hmt : mt ≠ "") (hh : pyStartsWith dt "hyperdisk" = true)
    (hlk : dd.lookup dt = some spec)
    (h1 : spec.throughput_min = some tmin) (h2 : spec.throughput_max = some tmax)
    (h3 : spec.note = some nt)
    (hfm : find_machine_specs md mt (some dt) = some ms) :
    get_optimal_disk_size dd md ⟨some mt, some dt⟩ =
      OptResponse.ok 100 ms.max_disk_iops_read 0 := by
  have hdt : dt ≠ "" := by
    intro h
    rw [h] at hh
    exact absurd hh (by decide)
  have hnl : ¬dt = "local-ssd" := by
    intro h
    rw [h] at hh
    exact absurd hh (by decide)
  have hdi : diskIopsAt dd dt 100 = 0 := by
    simp [diskIopsAt, calculate_disk_performance, hlk, hnl, hh, h1, h2, h3]
  simp [get_optimal_disk_size, pyTruthyS, hmt, hdt, hlk, hfm, hnl, hh, hdi]

/-- Witness for C10 on a concrete hyperdisk entry and flat-limit machine. -/
theorem c10_witness :
    get_optimal_disk_size c9DD c7MD ⟨some "n1-standard-8", some "hyperdisk-extreme"⟩ =
      OptResponse.ok 100 15000 0 := by
  have h := c10_hyperdisk_optimal_sentinel c9DD c7MD "n1-standard-8" "hyperdisk-extreme" _ _
    (JVal.num 100) (JVal.num 5000) "Provisioned IOPS disk"
    (by decide) (by decide) rfl rfl rfl rfl rfl
  simpa [flatResult, c7M] using h

/-- Any size at most the IOPS candidate of the solver keeps the scaling-disk
read IOPS under the machine ceiling (well-formed non-negative parameters). -/
theorem diskIops_le_of_le_optimalForIops (M b g imr S opt : ℚ)
    (hb0 : 0 ≤ b) (hbM : b ≤ M) (hg0 : 0 ≤ g)
    (hopt : opt ≤ optimalForIops M b g imr S) :
    ((truncQ (min (b + opt * g) imr) : ℤ) : ℚ) ≤ M := by
  have hM0 : 0 ≤ M := le_trans hb0 hbM
  apply truncQ_le_bound _ hM0
  by_cases hgpos : g > 0
  · have hdiv0 : 0 ≤ (M - b) / g := div_nonneg (by linarith) (le_of_lt hgpos)
    have ho1 : ((truncQ ((M - b) / g) : ℤ) : ℚ) ≤ (M - b) / g := truncQ_le_of_nonneg hdiv0
    have ho1M : b + ((truncQ ((M - b) / g) : ℤ) : ℚ) * g ≤ M := by
      have h2 := mul_le_mul_of_nonneg_right ho1 (le_of_lt hgpos)
      rw [div_mul_cancel₀ _ (ne_of_gt hgpos)] at h2
      linarith
    by_cases hrec : b + ((truncQ ((M - b) / g) : ℤ) : ℚ) * g > imr
    · exact le_trans (min_le_right _ _) (le_of_lt (lt_of_lt_of_le hrec ho1M))
    · have hcIe : optimalForIops M b g imr S = ((truncQ ((M - b) / g) : ℤ) : ℚ) := by
        simp only [optimalForIops]
        rw [if_pos hgpos, if_neg hrec]
      have hle : opt ≤ ((truncQ ((M - b) / g) : ℤ) : ℚ) := hcIe ▸ hopt
      have hfin : b + opt * g ≤ M := by
        have h3 := mul_le_mul_of_nonneg_right hle hg0
        linarith
      exact le_trans (min_le_left _ _) hfin
  · have hg : g = 0 := le_antisymm (not_lt.mp hgpos) hg0
    calc min (b + opt * g) imr ≤ b + opt * g := min_le_left _ _
      _ = b := by rw [hg]; ring
      _ ≤ M := hbM

/-- C3 (amended): for a well-formed scaling disk (non-negative baseline and
per-GB rate, baseline at most the machine ceiling), whenever the clamp does
not raise the chosen size above the candidates — that is, `min_size_gb` is at
most the clamped candidate minimum — the optimal-disk-size endpoint returns a
`disk_iops_at_optimal` that never exceeds `machine_max_iops`. -/
theorem c3_amended_solver_no_overshoot (dd : List (String × DiskSpec))
    (md : List (String × FamilyData)) (mt dt : String) (spec : DiskSpec)
    (ms : MachineSpecs) (ipg tpg : ReadWrite) (imr imw tmr tmw : ℚ)
    (hmt : mt ≠ "") (hdt : dt ≠ "")
    (hls : dt ≠ "local-ssd") (hh : pyStartsWith dt "hyperdisk" = false)
    (hlk : dd.lookup dt = some spec)
    (hfm : find_machine_specs md mt (some dt) = some ms)
    (hipg : spec.iops_per_gb = some ipg)
    (himax : spec.iops_max = some (JVal.obj imr imw))
    (htpg : spec.throughput_per_gb = some tpg)
    (htmax : spec.throughput_max = some (JVal.obj tmr tmw))
    (hb0 : 0 ≤ (spec.iops_baseline.getD ⟨0, 0⟩).read)
    (hbM : (spec.iops_baseline.getD ⟨0, 0⟩).read ≤ ms.max_disk_iops_read)
    (hipg0 : 0 ≤ ipg.read)
    (hclamp : spec.min_size_gb.getD 10 ≤
      min (min (optimalForIops ms.max_disk_iops_read ((spec.iops_baseline.getD ⟨0, 0⟩).read)
                 ipg.read imr (spec.max_size_gb.getD 65536))
               (optimalForThroughput ms.max_disk_throughput_read_mbps tpg.read tmr
                 (spec.max_size_gb.getD 65536)))
          (spec.max_size_gb.getD 65536)) :
    ∃ o d : ℚ, get_optimal_disk_size dd md ⟨some mt, some dt⟩ =
        OptResponse.ok o ms.max_disk_iops_read d ∧ d ≤ ms.max_disk_iops_read := by
  simp only [get_optimal_disk_size, pyTruthyS, bne_iff_ne, ne_eq, hmt, not_false_eq_true,
    hdt, and_self, if_true, Option.getD_some, hlk, hfm, hls, hh, Bool.false_eq_true, or_self,
    if_false, optimalSizeScaling, hipg, himax, htpg, htmax, diskIopsAt,
    calculate_disk_performance]
  rw [max_eq_right hclamp]
  refine ⟨_, _, rfl, ?_⟩
  exact diskIops_le_of_le_optimalForIops _ _ _ _ _ _ hb0 hbM hipg0
    (le_trans (min_le_left _ _) (min_le_left _ _))

/-- Disk catalog for the C3 counterexample: a well-formed scaling disk and a
local-ssd entry. -/
def c3DD : List (String × DiskSpec) :=
  [("pd-test",
    { name := "Test PD", iops_per_gb := some ⟨6, 6⟩,
      iops_max := some (JVal.obj 60000 60000), throughput_per_gb := some ⟨1, 1⟩,
      throughput_max := some (JVal.obj 60000 60000),
      min_size_gb := some 10, max_size_gb := some 65536 }),
   ("local-ssd",
    { name := "Local SSD", iops_fixed := some (JVal.obj 100000 100000),
      throughput_fixed := some (JVal.obj 800 800) })]

/-- Machine catalog for the C3 counterexample: a machine whose read-IOPS
ceiling (30) is below what the disk delivers at `min_size_gb`. -/
def c3MD : List (String × FamilyData) :=
  [("general",
    { description := "General purpose",
      machines := [("tiny",
        { vcpu := 2, memory_gb := 8, network_bandwidth_gbps := 10,
          max_disk_iops_read := some 30, max_disk_iops_write := some 30,
          max_disk_throughput_read_mbps := some 1000,
          max_disk_throughput_write_mbps := some 1000 })] })]

/-- Counterexample to C3 as stated: clamping the candidate size (5) up to
`min_size_gb` (10) yields `disk_iops_at_optimal = 60 > machine_max_iops = 30`,
and the fixed 100 GB local-ssd sentinel yields `100000 > 30`. -/
theorem c3_counterexample :
    (get_optimal_disk_size c3DD c3MD ⟨some "tiny", some "pd-test"⟩ =
        OptResponse.ok 10 30 60 ∧ ¬((60 : ℚ) ≤ 30)) ∧
    (get_optimal_disk_size c3DD c3MD ⟨some "tiny", some "local-ssd"⟩ =
        OptResponse.ok 100 30 100000 ∧ ¬((100000 : ℚ) ≤ 30)) := by
  refine ⟨⟨?_, by norm_num⟩, ⟨?_, by norm_num⟩⟩
  · norm_num [get_optimal_disk_size, c3DD, c3MD, pyTruthyS, find_machine_specs, resolveLimits,
      flatResult, optimalSizeScaling, optimalForIops, optimalForThroughput, truncQ,
      diskIopsAt, calculate_disk_performance, List.lookup]
    decide
  · norm_num [get_optimal_disk_size, c3DD, c3MD, pyTruthyS, find_machine_specs, resolveLimits,
      flatResult, optimalSizeScaling, optimalForIops, optimalForThroughput, truncQ,
      diskIopsAt, calculate_disk_performance, List.lookup]
    decide

/-- Disk catalog for the C3 amended-claim witness: a scaling disk whose
candidates stay above `min_size_gb`. -/
def c3wDD : List (String × DiskSpec) :=
  [("test-scaling",
    { name := "Test scaling disk", iops_per_gb := some ⟨6, 6⟩,
      iops_max := some (JVal.obj 80000 80000), throughput_per_gb := some ⟨1, 1⟩,
      throughput_max := some (JVal.obj 1200 1200),
      min_size_gb := some 10, max_size_gb := some 65536 })]

/-- Machine for the C3 amended-claim witness. -/
def c3wM : Machine :=
  { vcpu := 16, memory_gb := 64, network_bandwidth_gbps := 32,
    max_disk_iops_read := some 60000, max_disk_iops_write := some 60000,
    max_disk_throughput_read_mbps := some 1200, max_disk_throughput_write_mbps := some 1200 }

/-- Machine catalog for the C3 amended-claim witness. -/
def c3wMD : List (String × FamilyData) :=
  [("general", { description := "General purpose", machines := [("big", c3wM)] })]

/-- Witness for the amended C3 on a concrete machine and scaling disk. -/
theorem c3_witness :
    ∃ o d : ℚ, get_optimal_disk_size c3wDD c3wMD ⟨some "big", some "test-scaling"⟩ =
        OptResponse.ok o 60000 d ∧ d ≤ 60000 := by
  have h := c3_amended_solver_no_overshoot c3wDD c3wMD "big" "test-scaling" _ _
    ⟨6, 6⟩ ⟨1, 1⟩ 80000 80000 1200 1200
    (by decide) (by decide) (by decide) (by decide) rfl rfl rfl rfl rfl rfl
    (by norm_num) (by norm_num [flatResult, c3wM]) (by norm_num)
    (by norm_num [optimalForIops, optimalForThroughput, truncQ, flatResult, c3wM])
  simpa [flatResult, c3wM] using h

end GPA
